import Mathlib

/-!
# Verification of `custom_components/qilowatt/mqtt_client.py`

A shallow embedding of the `MQTTClient` class of the qilowatt-ha
integration.  Pure computation (the authorization table lookup) becomes a
Lean function; the side-effecting methods become functions from an explicit
environment (host state store, inverter behaviour, qilowatt client
behaviour) to a trace of effects together with an optional uncaught Python
exception.  All definitions are executable.
-/

namespace Qilowatt

/-- Modelled from the spec: the integration namespace constant `DOMAIN`
imported from `const.py`, a file not present under `src/`.  The spec only
requires a fixed namespace string used to prefix the notification channel
(`"<namespace>_workmode_update_<deviceId>"`). -/
def DOMAIN : String := "qilowatt"

/-- A `WorkModeCommand` delivered by the qilowatt MQTT library.  The code
reads only its `_source` field (here `source`); the rest of the payload is
opaque and modelled by `payload`. -/
structure WorkModeCommand where
  source : String
  payload : Nat
deriving DecidableEq, Repr

/-- A Python exception value, as far as the embedded code distinguishes
them. -/
inductive PyExc where
  | attributeError (attr : String)
  | keyError (key : String)
  | exception (msg : String)
deriving DecidableEq, Repr

/-- `config_entry`: carries `entry_id` and the `data` dict (a partial map
from string keys to string values). -/
structure ConfigEntry where
  entry_id : String
  data : String → Option String

/-- The state of the `QilowattMQTTClient` object built by
`initialize_client`: constructor arguments plus whether
`set_command_callback` has been called on it. -/
structure QilowattClient where
  mqtt_username : String
  mqtt_password : String
  inverter_id : String
  callback_registered : Bool

/-- The host entity registry as the code uses it:
`async_get_entity_id(domain, platform, unique_id)` returning an entity id
or `None`. -/
structure EntityRegistry where
  async_get_entity_id : String → String → String → Option String

/-- The Python object state of `MQTTClient`.  `qilowatt_client` is
`None`-able (`Option`); `entity_registry` is `Option` because the attribute
is *never assigned anywhere in the class*: `none` models the absent
attribute, whose access raises `AttributeError`. -/
structure MQTTClient where
  config_entry : ConfigEntry
  mqtt_username : String
  mqtt_password : String
  inverter_id : String
  inverter_model : String
  qilowatt_client : Option QilowattClient
  entity_registry : Option EntityRegistry

/-- `MQTTClient.__init__`: reads the four config keys (raising `KeyError`
when one is missing, as `config_entry.data[...]` would) and leaves
`qilowatt_client = None`.  No statement assigns `entity_registry`, so the
attribute is absent (`none`). -/
def MQTTClient.init (cfg : ConfigEntry) : Except PyExc MQTTClient :=
  match cfg.data "mqtt_username" with
  | none => .error (.keyError "mqtt_username")
  | some u =>
    match cfg.data "mqtt_password" with
    | none => .error (.keyError "mqtt_password")
    | some p =>
      match cfg.data "inverter_id" with
      | none => .error (.keyError "inverter_id")
      | some i =>
        match cfg.data "inverter_model" with
        | none => .error (.keyError "inverter_model")
        | some m =>
          .ok { config_entry := cfg
                mqtt_username := u
                mqtt_password := p
                inverter_id := i
                inverter_model := m
                qilowatt_client := none
                entity_registry := none }

/-- `initialize_client`: builds the `QilowattMQTTClient` from the stored
credentials and registers `_on_command_received` as its command callback.
It assigns only `self.qilowatt_client`. -/
def MQTTClient.initialize_client (self : MQTTClient) : MQTTClient :=
  { self with
      qilowatt_client := some
        { mqtt_username := self.mqtt_username
          mqtt_password := self.mqtt_password
          inverter_id := self.inverter_id
          callback_registered := true } }

/-! ## Authorization decision (`handle_inverter_control`, lines 97–111)

The Python `control_map` dict literal and the `dict.get(value, [])` lookup
with its deny-by-default empty list. -/

/-- The `control_map` dict lookup, `control_map.get(v)` without default:
a dict literal keyed by distinct string literals is an if-chain over the
keys. -/
def control_map_get (v : String) : Option (List String) :=
  if v = "Full control" then some ["timer", "fusebox"]
  else if v = "Only timer" then some ["timer"]
  else if v = "Only Fusebox" then some ["fusebox"]
  else if v = "No control" then some []
  else none

/-- `allowed_sources = control_map.get(inverter_control_value, [])`. -/
def allowed_sources (v : String) : List String :=
  (control_map_get v).getD []

/-- The authorization decision the code takes:
`command._source in allowed_sources` (the code tests its negation). -/
def IsAllowed (settingValue origin : String) : Bool :=
  (allowed_sources settingValue).contains origin

/-! ## Control path (`handle_inverter_control`) -/

/-- The observable effects of one run of `handle_inverter_control`, in
program order. -/
inductive ControlEffect where
  /-- `self.entity_registry.async_get_entity_id("select", DOMAIN, unique_id)` -/
  | lookupEntityId (domain platform unique_id : String)
  /-- `_LOGGER.error("Inverter Control select entity not found.")` -/
  | logErrorEntityNotFound
  /-- `self.hass.states.get(select_entity_id)` -/
  | readState (entity_id : String)
  /-- `_LOGGER.error("Unable to get state of Inverter Control select entity.")` -/
  | logErrorNoState
  /-- `_LOGGER.debug(f"Inverter Control value: {...}")` -/
  | logDebugControlValue (v : String)
  /-- `_LOGGER.info(f"Source '{...}' is not allowed by ...")` -/
  | logInfoSourceNotAllowed (src v : String)
  /-- `await self.inverter.set_mode(command)` -/
  | setMode (cmd : WorkModeCommand)
deriving DecidableEq, Repr

/-- The environment a run of `handle_inverter_control` interacts with:
the host state store (`hass.states.get`, collapsed to the `.state` string
of the found `State` object) and the outcome of `inverter.set_mode`. -/
structure ControlEnv where
  states : String → Option String
  set_mode_result : Except PyExc Unit

/-- Result of one run of a coroutine body: the effects it performed, and
the exception that escaped it, if any. -/
structure ControlRun where
  effects : List ControlEffect
  error : Option PyExc
deriving DecidableEq, Repr

/-- `handle_inverter_control`, line by line.  Accessing the never-assigned
`entity_registry` attribute raises `AttributeError` before anything else
happens.  `if not select_entity_id` is Python falsiness: `None` or the
empty string.  A missing state aborts with an error log.  Otherwise the
`control_map` decision gates a single `set_mode` call. -/
def MQTTClient.handle_inverter_control (self : MQTTClient) (env : ControlEnv)
    (command : WorkModeCommand) : ControlRun :=
  let select_unique_id := self.config_entry.entry_id ++ "_inverter_control"
  match self.entity_registry with
  | none => { effects := [], error := some (.attributeError "entity_registry") }
  | some reg =>
    let looked := ControlEffect.lookupEntityId "select" DOMAIN select_unique_id
    match reg.async_get_entity_id "select" DOMAIN select_unique_id with
    | none =>
        { effects := [looked, .logErrorEntityNotFound], error := none }
    | some select_entity_id =>
      if select_entity_id.isEmpty then
        { effects := [looked, .logErrorEntityNotFound], error := none }
      else
        match env.states select_entity_id with
        | none =>
            { effects := [looked, .readState select_entity_id, .logErrorNoState]
              error := none }
        | some inverter_control_value =>
          let seen := [looked, ControlEffect.readState select_entity_id,
                       ControlEffect.logDebugControlValue inverter_control_value]
          if (allowed_sources inverter_control_value).contains command.source then
            { effects := seen ++ [.setMode command]
              error := match env.set_mode_result with
                       | .ok _ => none
                       | .error e => some e }
          else
            { effects := seen ++
                [.logInfoSourceNotAllowed command.source inverter_control_value]
              error := none }

/-- `true` exactly on the `setMode` effect. -/
def ControlEffect.isSetMode : ControlEffect → Bool
  | .setMode _ => true
  | _ => false

/-! ## Callback path (`_on_command_received`)

The callback runs on the MQTT library's own thread.  Everything it does is
either a log line or a thread-safe handoff to the Home Assistant loop; the
event type also has a constructor for directly executing a control effect
on the calling thread, which the code never does. -/

/-- An event performed on the MQTT callback thread by
`_on_command_received`. -/
inductive CallbackEvent where
  /-- `_LOGGER.debug(f"Received WORKMODE command: {command}")` -/
  | logDebugReceived (cmd : WorkModeCommand)
  /-- `asyncio.run_coroutine_threadsafe(self.handle_inverter_control(command), self.hass.loop)`:
  schedule the control coroutine on the host loop and return at once. -/
  | scheduleControl (cmd : WorkModeCommand)
  /-- `self.hass.loop.call_soon_threadsafe(async_dispatcher_send, self.hass, signal, command)`:
  schedule the dispatcher notification on the host loop. -/
  | scheduleDispatch (signal : String) (cmd : WorkModeCommand)
  /-- Running a host-context-only control effect directly on the calling
  thread (never emitted by the code). -/
  | directHostEffect (e : ControlEffect)
deriving DecidableEq, Repr

/-- `true` exactly on a direct host-context operation. -/
def CallbackEvent.isDirectHostEffect : CallbackEvent → Bool
  | .directHostEffect _ => true
  | _ => false

/-- `true` exactly on the dispatcher-notification handoff. -/
def CallbackEvent.isDispatch : CallbackEvent → Bool
  | .scheduleDispatch _ _ => true
  | _ => false

/-- `_on_command_received`: log, schedule the control coroutine
thread-safely, schedule the dispatcher send thread-safely, return.  The
second component is the exception propagated to the MQTT library caller:
always `none`, the body only logs and enqueues. -/
def MQTTClient.on_command_received (self : MQTTClient) (command : WorkModeCommand) :
    List CallbackEvent × Option PyExc :=
  ([.logDebugReceived command,
    .scheduleControl command,
    .scheduleDispatch (DOMAIN ++ "_workmode_update_" ++ self.inverter_id) command],
   none)

/-! ## Telemetry path (`update_data` and `update_data_loop`) -/

/-- Opaque energy payload produced by `inverter.get_energy_data()`. -/
structure EnergyData where
  raw : Nat
deriving DecidableEq, Repr

/-- Opaque metrics payload produced by `inverter.get_metrics_data()`. -/
structure MetricsData where
  raw : Nat
deriving DecidableEq, Repr

/-- One call performed by `update_data`, in program order. -/
inductive TelemetryCall where
  /-- `self.inverter.get_energy_data()` -/
  | getEnergyData
  /-- `self.inverter.get_metrics_data()` -/
  | getMetricsData
  /-- `self.qilowatt_client.set_energy_data(energy_data)` -/
  | setEnergyData (d : EnergyData)
  /-- `self.qilowatt_client.set_metrics_data(metrics_data)` -/
  | setMetricsData (d : MetricsData)
deriving DecidableEq, Repr

/-- `true` on the two device reads, `false` on the two publishes. -/
def TelemetryCall.isRead : TelemetryCall → Bool
  | .getEnergyData => true
  | .getMetricsData => true
  | .setEnergyData _ => false
  | .setMetricsData _ => false

/-- The behaviour of the collaborators during one `update_data` call: what
each of the four calls would return or raise. -/
structure InverterEnv where
  energy : Except PyExc EnergyData
  metrics : Except PyExc MetricsData
  set_energy_result : Except PyExc Unit
  set_metrics_result : Except PyExc Unit

/-- `update_data`: fetch energy then metrics from the inverter, then hand
both to the qilowatt client.  Returns the calls actually made (a raising
call is made, then nothing further) and the exception escaping the method,
if any. -/
def update_data (env : InverterEnv) : List TelemetryCall × Option PyExc :=
  match env.energy with
  | .error e => ([.getEnergyData], some e)
  | .ok energy_data =>
    match env.metrics with
    | .error e => ([.getEnergyData, .getMetricsData], some e)
    | .ok metrics_data =>
      match env.set_energy_result with
      | .error e =>
          ([.getEnergyData, .getMetricsData, .setEnergyData energy_data], some e)
      | .ok _ =>
        match env.set_metrics_result with
        | .error e =>
            ([.getEnergyData, .getMetricsData, .setEnergyData energy_data,
              .setMetricsData metrics_data], some e)
        | .ok _ =>
            ([.getEnergyData, .getMetricsData, .setEnergyData energy_data,
              .setMetricsData metrics_data], none)

/-- An event of the telemetry loop body. -/
inductive LoopEvent where
  /-- a call made by `update_data` (run via `async_add_executor_job` and
  awaited to completion) -/
  | call (c : TelemetryCall)
  /-- `_LOGGER.error(f"Error updating data: {e}")` from the
  `except Exception` handler -/
  | logErrorUpdate (e : PyExc)
  /-- `await asyncio.sleep(10)` — the literal in the source is `10` -/
  | sleep (seconds : Nat)
deriving DecidableEq, Repr

/-- One iteration of the `while True` body of `update_data_loop`:
`try: await self.hass.async_add_executor_job(self.update_data)` — any
`Exception` is caught and logged — then `await asyncio.sleep(10)`.  The
`self` parameter carries the configuration; the body makes no use of it to
pick the sleep duration, which is the literal `10`. -/
def MQTTClient.loop_iteration (self : MQTTClient) (env : InverterEnv) :
    List LoopEvent :=
  let r := update_data env
  r.1.map LoopEvent.call ++
    (match r.2 with
     | some e => [LoopEvent.logErrorUpdate e]
     | none => []) ++
    [LoopEvent.sleep 10]

/-- The trace of the first `n` iterations of `update_data_loop`, where
`envs k` is the collaborators' behaviour during iteration `k`.  Each
iteration's body is awaited to completion before the next begins. -/
def MQTTClient.update_data_loop (self : MQTTClient) (envs : Nat → InverterEnv) :
    Nat → List LoopEvent
  | 0 => []
  | n + 1 => self.update_data_loop envs n ++ self.loop_iteration (envs n)

/-- Status of the `while True` loop. -/
inductive LoopStatus where
  | running
  | cancelled
deriving DecidableEq, Repr

/-- One step of the loop machine.  `cancel` models external task
cancellation (`asyncio.CancelledError`, a `BaseException` not caught by
`except Exception`, or lifecycle teardown) delivered at this iteration;
absent cancellation the body runs, its failures are swallowed by the
handler, and the loop stays `running`. -/
def loop_step (cancel : Bool) (self : MQTTClient) (env : InverterEnv) :
    LoopStatus → LoopStatus × List LoopEvent
  | .running =>
      if cancel then (.cancelled, []) else (.running, self.loop_iteration env)
  | .cancelled => (.cancelled, [])

/-- The loop status after `n` steps from `running`, with cancellation
schedule `cancels` and collaborator behaviours `envs`. -/
def loop_run (self : MQTTClient) (cancels : Nat → Bool)
    (envs : Nat → InverterEnv) : Nat → LoopStatus
  | 0 => .running
  | n + 1 => (loop_step (cancels n) self (envs n) (loop_run self cancels envs n)).1

/-! ## Concrete fixtures (used by witnesses and counterexamples) -/

/-- A config-entry `data` dict with the four keys the constructor reads. -/
def cfgA_data : List (String × String) :=
  [("mqtt_username", "user"), ("mqtt_password", "pw"),
   ("inverter_id", "inv1"), ("inverter_model", "sofar")]

/-- A concrete config entry. -/
def cfgA : ConfigEntry :=
  { entry_id := "entryA", data := fun k => cfgA_data.lookup k }

/-- The `MQTTClient` state `__init__` builds from `cfgA`. -/
def clientInit : MQTTClient :=
  { config_entry := cfgA
    mqtt_username := "user"
    mqtt_password := "pw"
    inverter_id := "inv1"
    inverter_model := "sofar"
    qilowatt_client := none
    entity_registry := none }

/-- An entity registry that resolves every lookup to the select entity. -/
def regA : EntityRegistry :=
  { async_get_entity_id := fun _ _ _ => some "select.inverter_control" }

/-- An entity registry with the select entity unregistered. -/
def regNone : EntityRegistry :=
  { async_get_entity_id := fun _ _ _ => none }

/-- `clientInit` with the `entity_registry` attribute present and resolving. -/
def clientA : MQTTClient :=
  { clientInit with entity_registry := some regA }

/-- `clientInit` with a registry that does not know the select entity. -/
def clientB : MQTTClient :=
  { clientInit with entity_registry := some regNone }

/-- Host state: the select entity reports `"Full control"`. -/
def envFull : ControlEnv :=
  { states := fun eid =>
      if eid = "select.inverter_control" then some "Full control" else none
    set_mode_result := .ok () }

/-- Host state: no entity has a state. -/
def envNoState : ControlEnv :=
  { states := fun _ => none
    set_mode_result := .ok () }

/-- A command from the timer schedule. -/
def cmdTimer : WorkModeCommand := { source := "timer", payload := 0 }

/-- A command from an origin no setting allows. -/
def cmdOther : WorkModeCommand := { source := "solarman", payload := 1 }

/-- Collaborator behaviour for one clean telemetry cycle. -/
def envOkTel : InverterEnv :=
  { energy := .ok { raw := 1 }
    metrics := .ok { raw := 2 }
    set_energy_result := .ok ()
    set_metrics_result := .ok () }

/-- Collaborator behaviour where the energy read raises. -/
def envFailTel : InverterEnv :=
  { energy := .error (.exception "read failed")
    metrics := .ok { raw := 2 }
    set_energy_result := .ok ()
    set_metrics_result := .ok () }

/-- A config-entry `data` dict that also carries a poll-interval key. -/
def cfgPoll_data : List (String × String) :=
  cfgA_data ++ [("poll_interval_seconds", "5")]

/-- A config entry asking (per the spec's configuration surface) for a
5-time-unit poll interval. -/
def cfgPoll : ConfigEntry :=
  { entry_id := "entryP", data := fun k => cfgPoll_data.lookup k }

/-- The `MQTTClient` state `__init__` builds from `cfgPoll`. -/
def clientPoll : MQTTClient :=
  { config_entry := cfgPoll
    mqtt_username := "user"
    mqtt_password := "pw"
    inverter_id := "inv1"
    inverter_model := "sofar"
    qilowatt_client := none
    entity_registry := none }

/-! ## Theorems -/

/-- C2: the authorization decision allows a command iff its origin is a
member of the `control_map` entry for the setting value, a value absent
from the table resolving to the empty allow-list (deny-by-default);
`"Full control"` allows exactly `"timer"` and `"fusebox"`, and
`"No control"` allows no origin at all. -/
theorem C2_is_allowed_characterization (v o : String) :
    (IsAllowed v o = true ↔ o ∈ (control_map_get v).getD [])
    ∧ (control_map_get v = none → allowed_sources v = [])
    ∧ (IsAllowed "Full control" o = true ↔ (o = "timer" ∨ o = "fusebox"))
    ∧ IsAllowed "No control" o = false := by
  refine ⟨?_, ?_, ?_, ?_⟩
  · simp [IsAllowed, allowed_sources, List.contains, List.elem_iff]
  · intro h
    simp [allowed_sources, h]
  · simp [IsAllowed, allowed_sources, control_map_get, List.contains,
      List.elem_iff]
  · rfl

/-- Witness for C2 at concrete inputs: `"timer"` is allowed under
`"Full control"`, denied under `"No control"`, and an unknown setting value
yields the empty allow-list. -/
theorem C2_is_allowed_witness :
    IsAllowed "Full control" "timer" = true
    ∧ IsAllowed "No control" "timer" = false
    ∧ allowed_sources "garbage" = [] :=
  ⟨(C2_is_allowed_characterization "Full control" "timer").2.2.1.mpr (Or.inl rfl),
   (C2_is_allowed_characterization "No control" "timer").2.2.2,
   (C2_is_allowed_characterization "garbage" "timer").2.1 (by decide)⟩

/-- C3: the class never assigns `entity_registry` — `__init__` leaves the
attribute absent and `initialize_client` does not touch it — so every run
of `handle_inverter_control` on a client built by the class raises
`AttributeError` with an empty effect trace: no registry lookup, no
host-state read, no authorization evaluation, no `set_mode`. -/
theorem C3_entity_registry_never_assigned (cfg : ConfigEntry)
    (client : MQTTClient) (env : ControlEnv) (cmd : WorkModeCommand)
    (h : MQTTClient.init cfg = .ok client) :
    client.entity_registry = none
    ∧ client.initialize_client.entity_registry = none
    ∧ client.handle_inverter_control env cmd =
        { effects := [], error := some (.attributeError "entity_registry") }
    ∧ client.initialize_client.handle_inverter_control env cmd =
        { effects := [], error := some (.attributeError "entity_registry") } := by
  unfold MQTTClient.init at h
  repeat' split at h
  all_goals cases h
  exact ⟨rfl, rfl, rfl, rfl⟩

/-- Witness for C3: the client built from `cfgA` (and the one after
`initialize_client`) raises `AttributeError` on `entity_registry` with no
prior effect. -/
theorem C3_entity_registry_witness :
    clientInit.entity_registry = none
    ∧ clientInit.initialize_client.entity_registry = none
    ∧ clientInit.handle_inverter_control envFull cmdTimer =
        { effects := [], error := some (.attributeError "entity_registry") }
    ∧ clientInit.initialize_client.handle_inverter_control envFull cmdTimer =
        { effects := [], error := some (.attributeError "entity_registry") } :=
  C3_entity_registry_never_assigned cfgA clientInit envFull cmdTimer rfl

/-- C1: once the control-mode setting resolves (registry attribute
present, entity found with a truthy id, state readable), an authorized
origin yields exactly one `set_mode` call carrying that very command, and
a denied origin yields zero `set_mode` calls. -/
theorem C1_setmode_exactly_when_allowed (client : MQTTClient)
    (reg : EntityRegistry) (eid v : String) (env : ControlEnv)
    (cmd : WorkModeCommand)
    (hreg : client.entity_registry = some reg)
    (hlookup : reg.async_get_entity_id "select" DOMAIN
        (client.config_entry.entry_id ++ "_inverter_control") = some eid)
    (hne : eid.isEmpty = false)
    (hstate : env.states eid = some v) :
    (IsAllowed v cmd.source = true →
      (client.handle_inverter_control env cmd).effects.filter
          ControlEffect.isSetMode = [ControlEffect.setMode cmd])
    ∧ (IsAllowed v cmd.source = false →
      (client.handle_inverter_control env cmd).effects.filter
          ControlEffect.isSetMode = []) := by
  constructor <;> intro hall <;>
    simp [MQTTClient.handle_inverter_control, hreg, hlookup, hne, hstate,
      IsAllowed] at hall ⊢ <;>
    simp [hall, List.filter, ControlEffect.isSetMode]

/-- Witness for C1: with the select entity resolving to `"Full control"`,
the timer command produces exactly one `set_mode` with that command and a
foreign-origin command produces none. -/
theorem C1_setmode_witness :
    (clientA.handle_inverter_control envFull cmdTimer).effects.filter
        ControlEffect.isSetMode = [ControlEffect.setMode cmdTimer]
    ∧ (clientA.handle_inverter_control envFull cmdOther).effects.filter
        ControlEffect.isSetMode = [] :=
  ⟨(C1_setmode_exactly_when_allowed clientA regA "select.inverter_control"
      "Full control" envFull cmdTimer rfl rfl rfl rfl).1 (by decide),
   (C1_setmode_exactly_when_allowed clientA regA "select.inverter_control"
      "Full control" envFull cmdOther rfl rfl rfl rfl).2 (by decide)⟩

/-- C4: every received command — authorized or not — produces exactly one
dispatcher notification in the callback trace, on the signal
`"<DOMAIN>_workmode_update_<inverter_id>"`, carrying the unmodified
command; `_on_command_received` consults no authorization state, so the
notification is initiated independently of the authorization outcome. -/
theorem C4_dispatch_exactly_once (self : MQTTClient) (cmd : WorkModeCommand) :
    (self.on_command_received cmd).1.filter CallbackEvent.isDispatch
      = [CallbackEvent.scheduleDispatch
          (DOMAIN ++ "_workmode_update_" ++ self.inverter_id) cmd] := rfl

/-- C6: with the `entity_registry` attribute present, a command whose
select entity cannot be resolved (lookup returns `None` or a falsy id), or
resolves but has no state, ends with exactly the lookup/read effects plus
one error log: no authorization evaluation, no `set_mode`, no other
mutation, and no exception. -/
theorem C6_unresolved_entity_aborts (client : MQTTClient)
    (reg : EntityRegistry) (env : ControlEnv) (cmd : WorkModeCommand)
    (hreg : client.entity_registry = some reg) :
    (reg.async_get_entity_id "select" DOMAIN
        (client.config_entry.entry_id ++ "_inverter_control") = none →
      client.handle_inverter_control env cmd =
        { effects := [.lookupEntityId "select" DOMAIN
              (client.config_entry.entry_id ++ "_inverter_control"),
            .logErrorEntityNotFound]
          error := none })
    ∧ (∀ eid, reg.async_get_entity_id "select" DOMAIN
        (client.config_entry.entry_id ++ "_inverter_control") = some eid →
        eid.isEmpty = true →
      client.handle_inverter_control env cmd =
        { effects := [.lookupEntityId "select" DOMAIN
              (client.config_entry.entry_id ++ "_inverter_control"),
            .logErrorEntityNotFound]
          error := none })
    ∧ (∀ eid, reg.async_get_entity_id "select" DOMAIN
        (client.config_entry.entry_id ++ "_inverter_control") = some eid →
        eid.isEmpty = false →
        env.states eid = none →
      client.handle_inverter_control env cmd =
        { effects := [.lookupEntityId "select" DOMAIN
              (client.config_entry.entry_id ++ "_inverter_control"),
            .readState eid, .logErrorNoState]
          error := none }) := by
  refine ⟨?_, ?_, ?_⟩
  · intro hnone
    simp [MQTTClient.handle_inverter_control, hreg, hnone]
  · intro eid hsome hempty
    simp [MQTTClient.handle_inverter_control, hreg, hsome, hempty]
  · intro eid hsome hne hnostate
    simp [MQTTClient.handle_inverter_control, hreg, hsome, hne, hnostate]

/-- Witness for C6: an unregistered select entity aborts with the
not-found error log, and a registered entity without state aborts with the
no-state error log — in both runs no `set_mode` and no authorization
effects appear. -/
theorem C6_unresolved_entity_witness :
    clientB.handle_inverter_control envFull cmdTimer =
      { effects := [.lookupEntityId "select" DOMAIN "entryA_inverter_control",
          .logErrorEntityNotFound]
        error := none }
    ∧ clientA.handle_inverter_control envNoState cmdTimer =
      { effects := [.lookupEntityId "select" DOMAIN "entryA_inverter_control",
          .readState "select.inverter_control", .logErrorNoState]
        error := none } :=
  ⟨(C6_unresolved_entity_aborts clientB regNone envFull cmdTimer rfl).1 rfl,
   (C6_unresolved_entity_aborts clientA regA envNoState cmdTimer rfl).2.2
      "select.inverter_control" rfl rfl rfl⟩

/-- C5: a failing `update_data` call is caught and logged inside the loop
body, which then sleeps; the loop is still running after any finite number
of cycles however each cycle's collaborators fail, and from `running` the
only transition away from `running` is an external cancellation. -/
theorem C5_loop_survives_failures (self : MQTTClient)
    (envs : Nat → InverterEnv) (n : Nat) :
    loop_run self (fun _ => false) envs n = .running
    ∧ (∀ (env : InverterEnv) (e : PyExc), (update_data env).2 = some e →
        LoopEvent.logErrorUpdate e ∈ self.loop_iteration env
        ∧ ∃ body, self.loop_iteration env = body ++ [LoopEvent.sleep 10])
    ∧ (∀ (cancel : Bool) (env : InverterEnv) (st : LoopStatus),
        (loop_step cancel self env st).1 = .cancelled →
        st = .cancelled ∨ cancel = true) := by
  refine ⟨?_, ?_, ?_⟩
  · induction n with
    | zero => rfl
    | succ k ih => simp [loop_run, loop_step, ih]
  · intro env e he
    refine ⟨by simp [MQTTClient.loop_iteration, he], ?_⟩
    exact ⟨(update_data env).1.map LoopEvent.call ++ [LoopEvent.logErrorUpdate e],
      by simp [MQTTClient.loop_iteration, he]⟩
  · intro cancel env st hst
    cases st with
    | running =>
        cases cancel with
        | false => simp [loop_step] at hst
        | true => exact Or.inr rfl
    | cancelled => exact Or.inl rfl

/-- Witness for C5: after five consecutive cycles whose energy read
raises, the loop is still running, and the failing cycle's body logged the
caught exception. -/
theorem C5_loop_survives_witness :
    loop_run clientInit (fun _ => false) (fun _ => envFailTel) 5 = .running
    ∧ LoopEvent.logErrorUpdate (.exception "read failed")
        ∈ clientInit.loop_iteration envFailTel :=
  ⟨(C5_loop_survives_failures clientInit (fun _ => envFailTel) 5).1,
   ((C5_loop_survives_failures clientInit (fun _ => envFailTel) 5).2.1
      envFailTel (.exception "read failed") rfl).1⟩

/-- C7: telemetry iterations are strictly sequential — the trace of `n+1`
iterations is the trace of `n` iterations followed by the whole body of
iteration `n`, whose last event is its sleep and whose first event is its
device read; so iteration `n+1`'s read begins only after iteration `n`'s
fetch, publish-or-failure handling and sleep have all completed. -/
theorem C7_iterations_sequential (self : MQTTClient)
    (envs : Nat → InverterEnv) (n : Nat) :
    self.update_data_loop envs (n + 1)
      = self.update_data_loop envs n ++ self.loop_iteration (envs n)
    ∧ (∃ body, self.loop_iteration (envs n) = body ++ [LoopEvent.sleep 10])
    ∧ (self.loop_iteration (envs n)).head?
        = some (.call .getEnergyData) := by
  refine ⟨rfl, ?_, ?_⟩
  · exact ⟨(update_data (envs n)).1.map LoopEvent.call ++
        (match (update_data (envs n)).2 with
         | some e => [LoopEvent.logErrorUpdate e]
         | none => []),
      by simp [MQTTClient.loop_iteration]⟩
  · have hfirst : ∀ env : InverterEnv,
        (self.loop_iteration env).head? = some (.call .getEnergyData) := by
      intro env
      obtain ⟨en, me, se, sm⟩ := env
      cases en <;> cases me <;> cases se <;> cases sm <;> rfl
    exact hfirst (envs n)

/-- C8 as stated is false: the loop's interval is the hard-coded literal
`10`, not a configured `pollIntervalSeconds`.  A config entry carrying
`poll_interval_seconds = "5"` still yields a cycle that sleeps 10 and
never 5 — changing the configuration does not change the cadence. -/
theorem C8_interval_not_configurable :
    MQTTClient.init cfgPoll = .ok clientPoll
    ∧ cfgPoll.data "poll_interval_seconds" = some "5"
    ∧ clientPoll.loop_iteration envOkTel
        = [.call .getEnergyData, .call .getMetricsData,
           .call (.setEnergyData { raw := 1 }),
           .call (.setMetricsData { raw := 2 }),
           .sleep 10]
    ∧ LoopEvent.sleep 5 ∉ clientPoll.loop_iteration envOkTel :=
  ⟨rfl, rfl, rfl, by decide⟩

/-- C8 (amended): every iteration of the telemetry loop sleeps the
hard-coded 10 time-units — the sleep duration is 10 for every client
configuration and every collaborator behaviour, and no other sleep
duration occurs. -/
theorem C8_sleep_hardcoded_ten (self : MQTTClient) (env : InverterEnv) :
    LoopEvent.sleep 10 ∈ self.loop_iteration env
    ∧ ∀ d, LoopEvent.sleep d ∈ self.loop_iteration env → d = 10 := by
  constructor
  · simp [MQTTClient.loop_iteration]
  · intro d hd
    rcases hmatch : (update_data env).2 with _ | e <;>
      simp [MQTTClient.loop_iteration, hmatch] at hd <;>
      exact hd

/-- Witness for C8's amended statement: the client configured with a
5-unit poll interval still sleeps 10, and its only sleep duration is 10. -/
theorem C8_sleep_hardcoded_witness :
    LoopEvent.sleep 10 ∈ clientPoll.loop_iteration envOkTel
    ∧ 10 = 10 :=
  ⟨(C8_sleep_hardcoded_ten clientPoll envOkTel).1,
   (C8_sleep_hardcoded_ten clientPoll envOkTel).2 10 (by decide)⟩

/-- C9: `_on_command_received` propagates no exception to the MQTT
library's calling thread even when the scheduled control coroutine fails,
performs no host-context-only operation on the calling thread, and returns
after exactly the debug log and the two thread-safe handoffs — none of the
control path's eventual effects occur on the calling thread. -/
theorem C9_callback_nonblocking (self : MQTTClient) (cmd : WorkModeCommand)
    (env : ControlEnv) :
    (self.on_command_received cmd).2 = none
    ∧ (∀ e ∈ (self.on_command_received cmd).1, e.isDirectHostEffect = false)
    ∧ (self.on_command_received cmd).1
        = [.logDebugReceived cmd, .scheduleControl cmd,
           .scheduleDispatch (DOMAIN ++ "_workmode_update_" ++ self.inverter_id) cmd]
    ∧ (∀ eff ∈ (self.handle_inverter_control env cmd).effects,
        CallbackEvent.directHostEffect eff ∉ (self.on_command_received cmd).1)
    ∧ (∀ err, (self.handle_inverter_control env cmd).error = some err →
        (self.on_command_received cmd).2 = none) := by
  refine ⟨rfl, ?_, rfl, ?_, fun _ _ => rfl⟩
  · intro e he
    simp [MQTTClient.on_command_received] at he
    rcases he with h | h | h <;> subst h <;> rfl
  · intro eff _
    simp [MQTTClient.on_command_received]

/-- Witness for C9: on the client whose control coroutine raises
`AttributeError` (the state `__init__` builds), the callback still returns
no error, and the control path's `set_mode` effect never runs on the
calling thread. -/
theorem C9_callback_witness :
    (clientInit.on_command_received cmdTimer).2 = none
    ∧ CallbackEvent.directHostEffect (.setMode cmdTimer)
        ∉ (clientInit.on_command_received cmdTimer).1 :=
  ⟨(C9_callback_nonblocking clientInit cmdTimer envFull).2.2.2.2
      (.attributeError "entity_registry") rfl,
   by
    have h9 := (C9_callback_nonblocking clientA cmdTimer envFull).2.2.2.1
      (.setMode cmdTimer) (by decide)
    exact h9⟩

/-- C10: within one `update_data` call both device reads precede both
publishes (the call list splits into reads followed by publishes), and a
raising read — of energy or of metrics — leaves the cycle with zero
publishes: no partial hand-off to the messaging client. -/
theorem C10_reads_before_publishes (env : InverterEnv) :
    (∃ reads pubs, (update_data env).1 = reads ++ pubs
       ∧ (∀ c ∈ reads, c.isRead = true) ∧ (∀ c ∈ pubs, c.isRead = false))
    ∧ (∀ e, env.energy = .error e →
        (update_data env).1.filter (fun c => !c.isRead) = [])
    ∧ (∀ e, env.metrics = .error e →
        (update_data env).1.filter (fun c => !c.isRead) = []) := by
  obtain ⟨en, me, se, sm⟩ := env
  refine ⟨?_, ?_, ?_⟩
  · cases en with
    | error e =>
        exact ⟨[.getEnergyData], [], rfl,
          by simp [TelemetryCall.isRead], by simp⟩
    | ok a =>
      cases me with
      | error e =>
          exact ⟨[.getEnergyData, .getMetricsData], [], rfl,
            by simp [TelemetryCall.isRead], by simp⟩
      | ok b =>
        cases se with
        | error e =>
            exact ⟨[.getEnergyData, .getMetricsData], [.setEnergyData a], rfl,
              by simp [TelemetryCall.isRead], by simp [TelemetryCall.isRead]⟩
        | ok u =>
          cases sm with
          | error e =>
              exact ⟨[.getEnergyData, .getMetricsData],
                [.setEnergyData a, .setMetricsData b], rfl,
                by simp [TelemetryCall.isRead], by simp [TelemetryCall.isRead]⟩
          | ok v =>
              exact ⟨[.getEnergyData, .getMetricsData],
                [.setEnergyData a, .setMetricsData b], rfl,
                by simp [TelemetryCall.isRead], by simp [TelemetryCall.isRead]⟩
  · intro e h
    cases en with
    | error e2 => rfl
    | ok a => exact Except.noConfusion h
  · intro e h
    cases en with
    | error e2 => rfl
    | ok a =>
      cases me with
      | error e2 => rfl
      | ok b => exact Except.noConfusion h

/-- Witness for C10: in the cycle whose energy read raises, no publish
call reaches the messaging client. -/
theorem C10_reads_witness :
    (update_data envFailTel).1.filter (fun c => !c.isRead) = [] :=
  (C10_reads_before_publishes envFailTel).2.1 (.exception "read failed") rfl

end Qilowatt
